import Mathlib

/-!
Verification of the gravity process-manager core (routing, artifact
reconciliation, unit naming, foreground exec) against its specification.

The Python sources embedded here are:
  src/gravity/process_manager/init (decorator routing, the format-variable
  resolver, the process executor, file updates, the router) and
  src/gravity/process_manager/systemd.py (the systemd backend).

Python dictionaries are modelled as association lists with in-place update
semantics; Python exceptions are modelled with an Except monad; the fixed
format strings consumed by str.format are modelled as lists of
literal/placeholder parts.
-/

namespace Gravity

/-- PyError models the exceptions the embedded code can raise: KeyError,
TypeError, AttributeError and IndexError from the Python runtime, and
gravityError for gravity.io.exception, which aborts the command with a
message. -/
inductive PyError where
  | keyError (k : String)
  | typeError (msg : String)
  | attributeError (msg : String)
  | indexError
  | gravityError (msg : String)
deriving DecidableEq, Repr

/-- dget models Python dict lookup d.get(k) on an association list whose
entries are in insertion order. -/
def dget {α : Type} : List (String × α) → String → Option α
  | [], _ => none
  | p :: rest, k => if p.1 = k then some p.2 else dget rest k

/-- dinsert models Python dict assignment d[k] = v: the first entry with the
key is replaced in place, otherwise the pair is appended. -/
def dinsert {α : Type} : List (String × α) → String → α → List (String × α)
  | [], k, v => [(k, v)]
  | p :: rest, k, v => if p.1 = k then (k, v) :: rest else p :: dinsert rest k v

/-- dunion models the Python dict merge a | b (equivalently a.update(b)):
entries of b are assigned into a one by one, so on shared keys the value
from b wins. -/
def dunion {α : Type} (a b : List (String × α)) : List (String × α) :=
  b.foldl (fun acc kv => dinsert acc kv.1 kv.2) a

/-- GracefulMethod mirrors gravity.state.GracefulMethod as used by the
systemd backend: NONE, SIGHUP or ROLLING. -/
inductive GracefulMethod where
  | NONE
  | SIGHUP
  | ROLLING
deriving DecidableEq, Repr

/-- ServiceCommandStyle mirrors gravity.settings.ServiceCommandStyle: direct
renders the literal command, gravity renders a galaxyctl self-reinvocation. -/
inductive ServiceCommandStyle where
  | direct
  | gravity
deriving DecidableEq, Repr

/-- FmtPart is one piece of a Python format string: a literal run or a
replacement field naming a key of the format-vars dict. -/
inductive FmtPart where
  | lit (s : String)
  | var (k : String)
deriving DecidableEq, Repr

/-- fmtWith models str.format over a parts list: each replacement field is
resolved through the lookup function, and a missing key raises KeyError
exactly as str.format does. -/
def fmtWith (lookup : String → Option String) : List FmtPart → Except PyError String
  | [] => Except.ok ""
  | FmtPart.lit s :: rest => do
    let tail ← fmtWith lookup rest
    Except.ok (s ++ tail)
  | FmtPart.var k :: rest =>
    match lookup k with
    | none => Except.error (PyError.keyError k)
    | some v => do
      let tail ← fmtWith lookup rest
      Except.ok (v ++ tail)

/-- Service mirrors one gravity service definition as consumed by the code
under verification.  The fields settings, command_arguments and environment
hold the results of the settings-resolution collaborators
(service.get_settings, service.get_command_arguments,
service.get_environment of gravity.state, which is not part of the sources):
they are modelled from the spec as pre-resolved data carried on the
service. -/
structure Service where
  service_name : String
  service_type : String
  config_type : String
  count : Nat
  environment_from : Option String
  umask : Option String
  settings : List (String × String)
  settings_memory_limit : Option Nat
  command_template : List FmtPart
  command_arguments : String
  environment : List (String × List FmtPart)
  add_virtualenv_to_path : Bool
  graceful_method : GracefulMethod
deriving DecidableEq, Repr

/-- Config mirrors one registered instance configuration.  Attribute-dict
accesses of the source (config.attribs, config.virtualenv, config indexing)
are flattened into fields; gravity_config_file stands for the source
attribute giving the path of the gravity config file, and
attribs_environments maps an attribs section name to the environment dict
nested under it. -/
structure Config where
  instance_name : String
  config_type : String
  process_manager : String
  service_command_style : ServiceCommandStyle
  services : List Service
  galaxy_infrastructure_url : Option String
  galaxy_root : String
  gravity_config_file : String
  virtualenv : Option String
  memory_limit : Option Nat
  galaxy_user : String
  galaxy_group : Option String
  attribs_environments : List (String × List (String × List FmtPart))
deriving DecidableEq, Repr

/-- FormatVars models the format_vars dict built by
BaseProcessExecutionEnvironment._service_format_vars (process_manager init
lines 92 to 129).  The string entries installed by the source are fields;
keys assigned by process-manager overrides that are not base keys land in
extra, preserving dict semantics; command_arguments, command and environment
start absent and are filled by the branches of the source. -/
structure FormatVars where
  config_type : String
  server_name : String
  program_name : String
  galaxy_infrastructure_url : String
  galaxy_umask : String
  galaxy_conf : String
  galaxy_root : String
  virtualenv_bin : String
  state_dir : String
  settings : List (String × String)
  extra : List (String × String) := []
  command_arguments : Option String := none
  command : Option String := none
  environment : List (String × String) := []
deriving DecidableEq, Repr

/-- FormatVars.setKey models one dict assignment format_vars[k] = v for a
string value: base keys update the corresponding field, any other key is
stored in extra. -/
def FormatVars.setKey (fv : FormatVars) (k v : String) : FormatVars :=
  match k with
  | "config_type" => { fv with config_type := v }
  | "server_name" => { fv with server_name := v }
  | "program_name" => { fv with program_name := v }
  | "galaxy_infrastructure_url" => { fv with galaxy_infrastructure_url := v }
  | "galaxy_umask" => { fv with galaxy_umask := v }
  | "galaxy_conf" => { fv with galaxy_conf := v }
  | "galaxy_root" => { fv with galaxy_root := v }
  | "virtualenv_bin" => { fv with virtualenv_bin := v }
  | "state_dir" => { fv with state_dir := v }
  | _ => { fv with extra := dinsert fv.extra k v }

/-- FormatVars.updateWith models format_vars.update(pm_format_vars)
(process_manager init line 111): each override is assigned in order. -/
def FormatVars.updateWith (fv : FormatVars) (kvs : List (String × String)) : FormatVars :=
  kvs.foldl (fun acc kv => acc.setKey kv.1 kv.2) fv

/-- FormatVars.get resolves one replacement field of a format string against
the dict: base keys, then override keys, then the nested settings dict
addressed as settings[key], as in the fixed templates of the source. -/
def FormatVars.get (fv : FormatVars) (k : String) : Option String :=
  match k with
  | "config_type" => some fv.config_type
  | "server_name" => some fv.server_name
  | "program_name" => some fv.program_name
  | "galaxy_infrastructure_url" => some fv.galaxy_infrastructure_url
  | "galaxy_umask" => some fv.galaxy_umask
  | "galaxy_conf" => some fv.galaxy_conf
  | "galaxy_root" => some fv.galaxy_root
  | "virtualenv_bin" => some fv.virtualenv_bin
  | "state_dir" => some fv.state_dir
  | "command_arguments" => fv.command_arguments
  | "command" => fv.command
  | _ =>
    match dget fv.extra k with
    | some v => some v
    | none =>
      if k.startsWith "settings[" && k.endsWith "]" then
        dget fv.settings ((k.drop 9).dropRight 1)
      else none

/-- service_environment models
BaseProcessExecutionEnvironment._service_environment (lines 84 to 90): the
service environment updated with the environment nested under the attribs
section selected by environment_from, defaulting to the service type when
environment_from is unset or empty. -/
def service_environment (service : Service) (config : Config) :
    List (String × List FmtPart) :=
  let environment_from :=
    match service.environment_from with
    | some e => if e = "" then service.service_type else e
    | none => service.service_type
  dunion service.environment
    ((dget config.attribs_environments environment_from).getD [])

/-- service_format_vars models
BaseProcessExecutionEnvironment._service_format_vars (lines 92 to 129) with
the environment formatter of ProcessExecutor (line 224), which formats each
environment value with the accumulated vars.  state_dir is the state
directory of the execution environment and default_path models
_service_default_path, the PATH inherited from os.environ. -/
def service_format_vars (state_dir default_path : String) (config : Config)
    (service : Service) (program_name : String)
    (pm_format_vars : List (String × String)) : Except PyError FormatVars := do
  let virtualenv_bin :=
    match config.virtualenv with
    | some d => d ++ "/bin" ++ "/"
    | none => ""
  let url ←
    match config.galaxy_infrastructure_url with
    | some u => Except.ok u
    | none => Except.error (PyError.keyError "galaxy_infrastructure_url")
  let fv : FormatVars :=
    { config_type := service.config_type
      server_name := service.service_name
      program_name := program_name
      galaxy_infrastructure_url := url
      galaxy_umask := service.umask.getD "022"
      galaxy_conf := config.gravity_config_file
      galaxy_root := config.galaxy_root
      virtualenv_bin := virtualenv_bin
      state_dir := state_dir
      settings := service.settings }
  let fv := fv.updateWith pm_format_vars
  if config.service_command_style = ServiceCommandStyle.direct then do
    let fv := { fv with command_arguments := some service.command_arguments }
    let command ← fmtWith fv.get service.command_template
    let fv := { fv with command := some command }
    let environment := service_environment service config
    let venv_bin := fv.virtualenv_bin
    let environment :=
      if venv_bin ≠ "" ∧ service.add_virtualenv_to_path then
        let path := (dget environment "PATH").getD [FmtPart.lit default_path]
        dinsert environment "PATH" (FmtPart.lit (venv_bin ++ ":") :: path)
      else environment
    let env ← environment.mapM (fun kv => do
      let v ← fmtWith fv.get kv.2
      Except.ok (kv.1, v))
    Except.ok { fv with environment := env }
  else do
    let fv := { fv with
      command := some ("galaxyctl exec " ++ config.instance_name ++ " " ++ program_name) }
    let env ← [("GRAVITY_STATE_DIR", [FmtPart.var "state_dir"])].mapM
      (fun kv : String × List FmtPart => do
        let v ← fmtWith fv.get kv.2
        Except.ok (kv.1, v))
    Except.ok { fv with environment := env }

/-- ExecCall records the observable outcome of ProcessExecutor.exec: the
config object as mutated by the call, the rendered command line, the
resolved service environment the source prints, the merged environment
passed to os.execvpe, and the working directory passed to os.chdir. -/
structure ExecCall where
  config : Config
  command : String
  resolved_env : List (String × String)
  env : List (String × String)
  cwd : String
deriving DecidableEq, Repr

/-- exec models ProcessExecutor.exec (process_manager init lines 227 to
243).  The first component of the result is the caller-visible state of the
config object, whose service_command_style field the source assigns before
resolving format vars; the second is the process-replacement call or the
exception raised.  Line 232 passes the bare service name as the
program_name argument, and line 236 computes the final environment as
format_vars environment merged with dict(os.environ), the inherited mapping
winning on shared keys. -/
def exec (os_environ : List (String × String)) (state_dir default_path : String)
    (config : Config) (service : Service) : Config × Except PyError ExecCall :=
  let service_name := service.service_name
  let config := { config with service_command_style := ServiceCommandStyle.direct }
  (config, do
    let fv ← service_format_vars state_dir default_path config service service_name []
    let command ←
      match fv.command with
      | some c => Except.ok c
      | none => Except.error (PyError.keyError "command")
    Except.ok { config := config, command := command, resolved_env := fv.environment,
                env := dunion fv.environment os_environ, cwd := fv.galaxy_root })

/-- file_needs_update models BaseProcessManager._file_needs_update
(process_manager init lines 133 to 141) over a filesystem modelled as a
dict from path to contents: update when the file is absent or its contents
differ. -/
def file_needs_update (fs : List (String × String)) (path contents : String) : Bool :=
  match dget fs path with
  | some existing => decide (existing ≠ contents)
  | none => true

/-- update_file models BaseProcessManager._update_file (lines 143 to 151).
The first component is the filesystem after the call; the second records
whether a write was performed (the info-level Adding or Updating branch of
the source; the source itself returns None). -/
def update_file (fs : List (String × String)) (path contents : String) :
    List (String × String) × Bool :=
  let exists_ := (dget fs path).isSome
  if (exists_ && file_needs_update fs path contents) || !exists_ then
    (dinsert fs path contents, true)
  else
    (fs, false)

/-- unit_stem is the unit_prefix attribute computed by
SystemdService (systemd.py lines 61 to 81): config type, a dash and the
instance name when instance names are in use, a dash, then the service
name. -/
def unit_stem (config : Config) (service : Service) (use_instance_name : Bool) : String :=
  let inst_part := if use_instance_name then "-" ++ config.instance_name else ""
  service.config_type ++ inst_part ++ "-" ++ service.service_name

/-- unit_file_name models SystemdService.unit_file_name (lines 83 to 89):
templated with an at sign when the replication count exceeds one, plain
otherwise. -/
def unit_file_name (config : Config) (service : Service) (use_instance_name : Bool) : String :=
  if service.count > 1 then
    unit_stem config service use_instance_name ++ "@.service"
  else
    unit_stem config service use_instance_name ++ ".service"

/-- unit_names models SystemdService.unit_names (lines 91 to 99): the
identifiers used by commands after instance expansion, indexed from 0 to
count minus 1 when the count exceeds one. -/
def unit_names (config : Config) (service : Service) (use_instance_name : Bool) : List String :=
  if service.count > 1 then
    (List.range service.count).map
      (fun i => unit_stem config service use_instance_name ++ "@" ++ toString i ++ ".service")
  else
    [unit_stem config service use_instance_name ++ ".service"]

/-- managed_unit is the naming-convention filter of
SystemdProcessManager._process_configs (systemd.py line 259) applied to the
unit directory listing. -/
def managed_unit (f : String) : Bool :=
  (f.startsWith "galaxy-" && (f.endsWith ".service" || f.endsWith ".target"))
    || f == "galaxy.target"

/-- reconcile models the reconciliation tail of
SystemdProcessManager._process_configs (systemd.py lines 256 to 274), with
the unit directory as a dict from file name to contents and the intended
set, accumulated earlier in the update pass, as a list of file names.  The
present set is the listing filtered by the naming convention; in clean mode
the removal set is present intersected with intended, otherwise present
minus intended; each removed file is disabled and unlinked.  The result is
the directory after the removals together with the list of removed file
names. -/
def reconcile (fs : List (String × String)) (intended : List String) (clean : Bool) :
    List (String × String) × List String :=
  let present := (fs.map Prod.fst).filter managed_unit
  let unintended :=
    if clean then present.filter (fun f => decide (f ∈ intended))
    else present.filter (fun f => decide (f ∉ intended))
  (fs.filter (fun p => decide (p.1 ∉ unintended)), unintended)

/-- systemd_update_service models SystemdProcessManager.__update_service
(systemd.py lines 158 to 205).  user_mode is the backend flag meaning not
running as root and environ_virtual_env is the VIRTUAL_ENV value from
os.environ.  After the virtualenv resolution of lines 162 to 169 the source
builds the memory limit, reload directive and systemd format vars, and then
line 194 invokes self._service_format_vars(config, service,
systemd_format_vars): the method defined at process_manager init line 92
takes config, service, program_name and pm_format_vars, so the call is
short one positional argument and Python raises TypeError before any
rendering takes place. -/
def systemd_update_service (user_mode : Bool) (environ_virtual_env : Option String)
    (config : Config) (service : Service) : Except PyError FormatVars := do
  let virtualenv_dir ←
    match config.virtualenv with
    | some d => Except.ok (some d)
    | none =>
      match user_mode, environ_virtual_env with
      | true, some v => Except.ok (some v)
      | _, _ => Except.error (PyError.gravityError
          "The virtualenv Gravity config option must be set when using the systemd process manager")
  let _memory_limit :=
    match service.settings_memory_limit with
    | some m => some m
    | none => config.memory_limit
  let _exec_reload := service.graceful_method = GracefulMethod.SIGHUP
  let _virtualenv_bin :=
    match virtualenv_dir with
    | some d => d ++ "/bin" ++ "/"
    | none => ""
  Except.error (PyError.typeError
    "_service_format_vars missing 1 required positional argument: pm_format_vars")

/-- systemd_update_no_configs models SystemdProcessManager.update
(systemd.py lines 343 to 360) specialized to an update call with zero
configs, force false and clean false, the zero-changes scenario: the config
loop of _process_config never runs, so the intended set is empty, and
_process_configs either returns early when the unit directory is absent or
removes every present managed unit (present minus the empty intended set),
setting _service_changes on each removal.  service_changes0 is the state of
the _service_changes attribute on entry, none meaning never assigned, and
listing is the unit directory listing, none meaning the directory does not
exist.  The source never initializes _service_changes, so reading it at
line 357 with no prior assignment raises AttributeError.  On success the
result is the removed file names and whether daemon-reload was issued. -/
def systemd_update_no_configs (service_changes0 : Option Bool)
    (listing : Option (List String)) : Except PyError (List String × Bool) :=
  let state :=
    match listing with
    | none => (service_changes0, ([] : List String))
    | some files =>
      let present := files.filter managed_unit
      (if present = [] then service_changes0 else some true, present)
  match state.1 with
  | none => Except.error (PyError.attributeError "_service_changes")
  | some true => Except.ok (state.2, true)
  | some false => Except.ok (state.2, false)

/-- Modelled from the spec: the Config Registry collaborator
(gravity.config_manager.ConfigManager, not among the sources) is a lookup
of all registered instance configs. -/
structure Registry where
  configs : List Config
deriving DecidableEq, Repr

/-- Modelled from the spec: ConfigManager.get_registered_configs filters the
registered configs by instance name; passing no filter returns them all. -/
def get_registered_configs (reg : Registry) (instances : Option (List String)) :
    List Config :=
  match instances with
  | none => reg.configs
  | some l => reg.configs.filter (fun c => decide (c.instance_name ∈ l))

/-- Modelled from the spec: ConfigManager.get_registered_instance_names
lists the names of the registered instances. -/
def registered_instance_names (reg : Registry) : List String :=
  reg.configs.map Config.instance_name

/-- Modelled from the spec: ConfigManager.get_configured_service_names
lists every service name configured in any registered instance. -/
def configured_service_names (reg : Registry) : List String :=
  reg.configs.flatMap (fun c => c.services.map Service.service_name)

/-- Modelled from the spec: ConfigManager.single_instance holds when the
whole registry contains exactly one instance. -/
def single_instance (reg : Registry) : Bool :=
  reg.configs.length == 1

/-- instance_service_names models
ProcessManagerRouter._instance_service_names (process_manager init lines
264 to 279).  valid is the reserved VALID_SERVICE_NAMES set of
gravity.state.  The per-token loop appends each token to the instance list
when it is a registered instance name, else to the service list when it is
a configured or reserved service name, else warns; the loop is embedded as
three order-preserving filters.  The third component collects the warned
tokens; when no token matched at all the source raises through
gravity.io.exception. -/
def instance_service_names (reg : Registry) (valid : List String)
    (names : List String) : Except PyError (List String × List String × List String) :=
  if names = [] then Except.ok ([], [], [])
  else
    let inames := names.filter fun n => decide (n ∈ registered_instance_names reg)
    let snames := names.filter fun n =>
      decide (n ∉ registered_instance_names reg ∧
        (n ∈ configured_service_names reg ∨ n ∈ valid))
    let warns := names.filter fun n =>
      decide (n ∉ registered_instance_names reg ∧
        n ∉ configured_service_names reg ∧ n ∉ valid)
    if inames = [] ∧ snames = [] then
      Except.error (PyError.gravityError
        "No provided names are known instance or service names")
    else Except.ok (inames, snames, warns)

/-- group_get reads one group from the configs-by-process-manager dict with
a default of the empty list, as configs_by_pm.get(pm_name, []) does. -/
def group_get : List (String × List Config) → String → List Config
  | [], _ => []
  | p :: rest, pm => if p.1 = pm then p.2 else group_get rest pm

/-- add_to_group models one iteration of the grouping loop of _route
(process_manager init lines 38 to 42): the config is appended to the group
of its process manager, a new group being created at the end on the first
occurrence. -/
def add_to_group : List (String × List Config) → Config → List (String × List Config)
  | [], c => [(c.process_manager, [c])]
  | p :: rest, c =>
    if p.1 = c.process_manager then (p.1, p.2 ++ [c]) :: rest
    else p :: add_to_group rest c

/-- configs_by_pm_go folds the grouping loop over the remaining configs. -/
def configs_by_pm_go (acc : List (String × List Config)) :
    List Config → List (String × List Config)
  | [] => acc
  | c :: rest => configs_by_pm_go (add_to_group acc c) rest

/-- configs_by_pm groups a config list by process manager name, in
insertion order of first occurrence, as the configs_by_pm dict of _route. -/
def configs_by_pm (configs : List Config) : List (String × List Config) :=
  configs_by_pm_go [] configs

/-- dispatch_loop models the dispatch loop of _route (lines 45 to 56): each
process-manager name is looked up among the loaded backends, raising
KeyError when absent, and the routed method is invoked with the config
subset of that backend; the result lists the invocations in order as pairs
of backend name and configs argument. -/
def dispatch_loop (pms : List String) (by_pm : List (String × List Config)) :
    List String → Except PyError (List (String × List Config))
  | [] => Except.ok []
  | pm :: rest =>
    if pm ∈ pms then do
      let calls ← dispatch_loop pms by_pm rest
      Except.ok ((pm, group_get by_pm pm) :: calls)
    else Except.error (PyError.keyError pm)

/-- route_calls models the _route decorator (process_manager init lines 29
to 58) around a lifecycle method taking a configs argument: classify the
name tokens, fetch the registered configs matching the instance-name filter
(all of them when the filter is empty), group them by process manager, and
dispatch either to the backends owning a group or, when
all_process_managers is set as for update, to every loaded backend.  pms
lists the loaded backend names. -/
def route_calls (pms : List String) (reg : Registry) (valid : List String)
    (all_process_managers : Bool) (names : List String) :
    Except PyError (List (String × List Config)) := do
  let r ← instance_service_names reg valid names
  let instance_names := r.1
  let configs := get_registered_configs reg
    (if instance_names.isEmpty then none else some instance_names)
  let by_pm := configs_by_pm configs
  let pm_names := if all_process_managers then pms else by_pm.map Prod.fst
  dispatch_loop pms by_pm pm_names

/-- router_exec models ProcessManagerRouter.exec (process_manager init
lines 281 to 302): classify the tokens, require zero or one instance name
with zero only allowed for a single-instance registry, take the first
matching config, require exactly one service name, and look the service up
in that config, raising with the configured service list in the message
otherwise.  On success the source hands the pair to ProcessExecutor.exec. -/
def router_exec (reg : Registry) (valid : List String) (names : List String) :
    Except PyError (Config × Service) := do
  let r ← instance_service_names reg valid names
  let instance_names := r.1
  let service_names := r.2.1
  let instance_filter ←
    if instance_names.length = 0 ∧ single_instance reg then
      Except.ok (none : Option (List String))
    else if instance_names.length ≠ 1 then
      Except.error (PyError.gravityError "Only zero or one instance name can be provided")
    else Except.ok (some instance_names)
  let config ←
    match get_registered_configs reg instance_filter with
    | [] => Except.error PyError.indexError
    | c :: _ => Except.ok c
  let service_list := String.intercalate ", " (config.services.map Service.service_name)
  if service_names.length ≠ 1 then
    Except.error (PyError.gravityError
      ("Exactly one service name must be provided. Configured service(s): " ++ service_list))
  else
    let service_name := service_names.headD ""
    match config.services.filter (fun s => decide (s.service_name = service_name)) with
    | [] => Except.error (PyError.gravityError
        ("Service " ++ service_name ++ " is not configured. Configured service(s): "
          ++ service_list))
    | s :: _ => Except.ok (config, s)

/-- svc_web is a concrete single-process web service used by the example
registries. -/
def svc_web : Service :=
  { service_name := "web", service_type := "gunicorn", config_type := "galaxy",
    count := 1, environment_from := none, umask := none,
    settings := [("start_timeout", "15"), ("stop_timeout", "65")],
    settings_memory_limit := none,
    command_template :=
      [FmtPart.lit "gunicorn --bind ", FmtPart.var "galaxy_infrastructure_url"],
    command_arguments := "",
    environment := [("FOO", [FmtPart.lit "resolved"])],
    add_virtualenv_to_path := true,
    graceful_method := GracefulMethod.SIGHUP }

/-- svc_job is a concrete replicated handler service with count 3. -/
def svc_job : Service :=
  { svc_web with
    service_name := "job", service_type := "celery", count := 3,
    graceful_method := GracefulMethod.NONE, environment := [] }

/-- svc_gx is a concrete service configured only in the second example
instance. -/
def svc_gx : Service :=
  { svc_web with
    service_name := "gx", service_type := "standalone",
    environment := [] }

/-- cfg_alpha is a concrete registered instance bound to the systemd
backend. -/
def cfg_alpha : Config :=
  { instance_name := "alpha", config_type := "galaxy", process_manager := "systemd",
    service_command_style := ServiceCommandStyle.gravity,
    services := [svc_web, svc_job],
    galaxy_infrastructure_url := some "http://localhost:8080",
    galaxy_root := "/srv/galaxy",
    gravity_config_file := "/srv/galaxy/config/galaxy.yml",
    virtualenv := some "/srv/venv",
    memory_limit := none,
    galaxy_user := "galaxy", galaxy_group := none,
    attribs_environments := [("gunicorn", [("BAR", [FmtPart.lit "frombar"])])] }

/-- cfg_beta is a second registered instance with one service of its own. -/
def cfg_beta : Config :=
  { cfg_alpha with instance_name := "beta", services := [svc_gx] }

/-- reg_exec is a registry with the two example instances. -/
def reg_exec : Registry := ⟨[cfg_alpha, cfg_beta]⟩

/-- os_env_exec is a concrete inherited process environment sharing the
keys PATH and FOO with the resolved service environment. -/
def os_env_exec : List (String × String) :=
  [("PATH", "/usr/bin"), ("FOO", "inherited"), ("HOME", "/home/u")]

/-- dget_dinsert_self: looking up a key right after assigning it yields the
assigned value. -/
theorem dget_dinsert_self {α : Type} (d : List (String × α)) (k : String) (v : α) :
    dget (dinsert d k v) k = some v := by
  induction d with
  | nil => simp [dinsert, dget]
  | cons p rest ih =>
    by_cases h : p.1 = k
    · simp [dinsert, dget, h]
    · simp [dinsert, dget, h, ih]

/-- C9: writing a rendered artifact and then writing the identical contents
again leaves the file untouched and performs no write: after the first
update_file the file holds the rendered contents, and a second update_file
with the same contents returns the filesystem unchanged with the
write flag false, because _file_needs_update reports no difference. -/
theorem update_file_idempotent (fs : List (String × String)) (path contents : String) :
    dget (update_file fs path contents).1 path = some contents
  ∧ update_file (update_file fs path contents).1 path contents
      = ((update_file fs path contents).1, false) := by
  unfold update_file file_needs_update
  cases h : dget fs path with
  | none => simp [h, dget_dinsert_self]
  | some e =>
    by_cases he : e = contents
    · subst he; simp [h]
    · simp [h, he, dget_dinsert_self]

/-- C3: the reload post-condition of SystemdProcessManager.update does not
hold on the code.  A fresh backend running update with zero configs and an
empty unit directory, the zero-changes scenario, raises AttributeError
because the _service_changes attribute is read at systemd.py line 357
without ever having been initialized, instead of issuing zero reload calls;
and because the attribute is never reset at the start of a call, a backend
whose earlier update left it set issues a daemon-reload even though the
present call changed nothing. -/
theorem systemd_update_reload_divergence :
    systemd_update_no_configs none (some [])
        = Except.error (PyError.attributeError "_service_changes")
  ∧ systemd_update_no_configs (some true) (some []) = Except.ok ([], true) :=
  ⟨rfl, rfl⟩

/-- C4: the regeneration pass never renders any artifact: for every config
and service, SystemdProcessManager.__update_service raises, either the
virtualenv configuration error of lines 162 to 169 or, once a virtualenv is
available, the TypeError of line 194 where _service_format_vars is invoked
with one positional argument too few, so the unit file body is never
produced. -/
theorem systemd_update_service_never_renders (user_mode : Bool)
    (environ_virtual_env : Option String) (config : Config) (service : Service) :
    ∃ e, systemd_update_service user_mode environ_virtual_env config service
      = Except.error e := by
  obtain ⟨i, ct, pm, scs, svs, url, root, file, venv, ml, u, g, ae⟩ := config
  cases venv with
  | some d => exact ⟨_, rfl⟩
  | none => cases user_mode <;> cases environ_virtual_env <;> exact ⟨_, rfl⟩

/-- C5: in ProcessExecutor.exec the merged environment passed to the
process-replacement call favors the inherited os.environ value, not the
resolved one: on a service whose resolved environment carries FOO=resolved
and a virtualenv-prefixed PATH, with os.environ carrying FOO=inherited and
the plain PATH, the environment handed to os.execvpe holds the inherited
values for both shared keys, because line 236 merges as resolved |
os.environ, while the resolved values are only printed. -/
theorem exec_env_inherited_wins :
    ((exec os_env_exec "/state" "/usr/bin" cfg_alpha svc_web).2.map
      (fun r => (dget r.resolved_env "PATH", dget r.env "PATH",
                 dget r.resolved_env "FOO", dget r.env "FOO")))
      = Except.ok (some "/srv/venv/bin/:/usr/bin", some "/usr/bin",
                   some "resolved", some "inherited") := by
  rfl

/-- C10: ProcessExecutor.exec mutates the config it is given before
resolving format vars: the caller-visible config has its
service_command_style field set to direct whatever it was before, the
outcome of the call is insensitive to the incoming style, and every other
field of the config is left unchanged. -/
theorem exec_mutates_only_command_style (os_environ : List (String × String))
    (state_dir default_path : String) (config : Config) (service : Service) :
    (exec os_environ state_dir default_path config service).1
        = { config with service_command_style := ServiceCommandStyle.direct }
  ∧ (∀ v, exec os_environ state_dir default_path
        { config with service_command_style := v } service
      = exec os_environ state_dir default_path config service)
  ∧ (exec os_environ state_dir default_path config service).1.service_command_style
        = ServiceCommandStyle.direct
  ∧ (exec os_environ state_dir default_path config service).1.instance_name
        = config.instance_name
  ∧ (exec os_environ state_dir default_path config service).1.config_type
        = config.config_type
  ∧ (exec os_environ state_dir default_path config service).1.process_manager
        = config.process_manager
  ∧ (exec os_environ state_dir default_path config service).1.services
        = config.services
  ∧ (exec os_environ state_dir default_path config service).1.galaxy_infrastructure_url
        = config.galaxy_infrastructure_url
  ∧ (exec os_environ state_dir default_path config service).1.galaxy_root
        = config.galaxy_root
  ∧ (exec os_environ state_dir default_path config service).1.gravity_config_file
        = config.gravity_config_file
  ∧ (exec os_environ state_dir default_path config service).1.virtualenv
        = config.virtualenv
  ∧ (exec os_environ state_dir default_path config service).1.memory_limit
        = config.memory_limit
  ∧ (exec os_environ state_dir default_path config service).1.galaxy_user
        = config.galaxy_user
  ∧ (exec os_environ state_dir default_path config service).1.galaxy_group
        = config.galaxy_group
  ∧ (exec os_environ state_dir default_path config service).1.attribs_environments
        = config.attribs_environments :=
  ⟨rfl, fun _ => rfl, rfl, rfl, rfl, rfl, rfl, rfl, rfl, rfl, rfl, rfl, rfl, rfl, rfl⟩

/-- C6: exec routing cardinality on a two-instance registry: a request with
zero instance tokens is rejected, a request with two instance tokens is
rejected, a request with one instance token and one service token
configured in that instance reaches the executor with that config and
service, and a request naming a service not configured in the resolved
instance fails with a message listing the configured services. -/
theorem router_exec_cardinality :
    router_exec reg_exec [] ["web"]
        = Except.error (PyError.gravityError
            "Only zero or one instance name can be provided")
  ∧ router_exec reg_exec [] ["alpha", "beta", "web"]
        = Except.error (PyError.gravityError
            "Only zero or one instance name can be provided")
  ∧ router_exec reg_exec [] ["alpha", "web"] = Except.ok (cfg_alpha, svc_web)
  ∧ router_exec reg_exec [] ["alpha", "gx"]
        = Except.error (PyError.gravityError
            "Service gx is not configured. Configured service(s): web, job") :=
  ⟨rfl, rfl, rfl, rfl⟩

/-- C7: systemd unit naming by replication count: a count of one yields the
plain unit file name and a single command identifier, a count of three
yields the templated unit file name and exactly the three indexed
identifiers 0, 1 and 2. -/
theorem systemd_unit_naming (config : Config) (service : Service) (u : Bool) :
    (service.count = 1 →
        unit_file_name config service u = unit_stem config service u ++ ".service"
      ∧ unit_names config service u = [unit_stem config service u ++ ".service"])
  ∧ (service.count = 3 →
        unit_file_name config service u = unit_stem config service u ++ "@.service"
      ∧ unit_names config service u
          = [unit_stem config service u ++ "@0.service",
             unit_stem config service u ++ "@1.service",
             unit_stem config service u ++ "@2.service"]) := by
  constructor
  · intro h
    constructor
    · simp [unit_file_name, h]
    · simp [unit_names, h]
  · intro h
    constructor
    · simp [unit_file_name, h]
    · have h3 : List.range 3 = [0, 1, 2] := rfl
      simp only [unit_names, h, h3, List.map_cons, List.map_nil,
        String.append_assoc]
      rfl

/-- systemd_unit_naming_witness instantiates the naming theorem at a
count-one service and a count-three service of the example config. -/
theorem systemd_unit_naming_witness :
    (unit_file_name cfg_alpha svc_web true
        = unit_stem cfg_alpha svc_web true ++ ".service"
      ∧ unit_names cfg_alpha svc_web true
        = [unit_stem cfg_alpha svc_web true ++ ".service"])
  ∧ (unit_file_name cfg_alpha svc_job true
        = unit_stem cfg_alpha svc_job true ++ "@.service"
      ∧ unit_names cfg_alpha svc_job true
        = [unit_stem cfg_alpha svc_job true ++ "@0.service",
           unit_stem cfg_alpha svc_job true ++ "@1.service",
           unit_stem cfg_alpha svc_job true ++ "@2.service"]) :=
  ⟨(systemd_unit_naming cfg_alpha svc_web true).1 rfl,
   (systemd_unit_naming cfg_alpha svc_job true).2 rfl⟩

/-- group_get_add_to_group: adding a config to the grouping extends exactly
the group of its process manager. -/
theorem group_get_add_to_group (g : List (String × List Config)) (c : Config)
    (pm : String) :
    group_get (add_to_group g c) pm
      = group_get g pm ++ (if c.process_manager = pm then [c] else []) := by
  induction g with
  | nil =>
    by_cases h : c.process_manager = pm <;> simp [add_to_group, group_get, h]
  | cons p rest ih =>
    by_cases hp : p.1 = c.process_manager
    · by_cases hpm : p.1 = pm
      · have hc : c.process_manager = pm := hp.symm.trans hpm
        simp [add_to_group, group_get, hp, hpm, hc]
      · have hc : ¬c.process_manager = pm := fun hcm => hpm (hp.trans hcm)
        simp [add_to_group, group_get, hp, hpm, hc]
    · by_cases hpm : p.1 = pm
      · have hc : ¬c.process_manager = pm := fun hcm => hp (by rw [hpm, hcm])
        have hc' : ¬pm = c.process_manager := fun h => hc h.symm
        simp [add_to_group, group_get, hp, hpm, hc, hc']
      · simp [add_to_group, group_get, hp, hpm, ih]

/-- mem_keys_add_to_group: the group keys after adding a config are the old
keys plus the process manager of the config. -/
theorem mem_keys_add_to_group (g : List (String × List Config)) (c : Config)
    (pm : String) :
    pm ∈ (add_to_group g c).map Prod.fst
      ↔ pm ∈ g.map Prod.fst ∨ pm = c.process_manager := by
  induction g with
  | nil => simp [add_to_group, eq_comm]
  | cons p rest ih =>
    by_cases hp : p.1 = c.process_manager
    · rw [← hp]
      simp [add_to_group, hp]
      tauto
    · simp [add_to_group, hp, ih]
      tauto

/-- group_get_configs_by_pm_go: the group of a process manager accumulated
over a config list is the accumulator group followed by the matching
configs in order. -/
theorem group_get_configs_by_pm_go (cs : List Config) :
    ∀ acc pm, group_get (configs_by_pm_go acc cs) pm
      = group_get acc pm
          ++ cs.filter (fun c => decide (c.process_manager = pm)) := by
  induction cs with
  | nil => intro acc pm; simp [configs_by_pm_go]
  | cons c rest ih =>
    intro acc pm
    by_cases h : c.process_manager = pm <;>
      simp [configs_by_pm_go, ih, group_get_add_to_group, h]

/-- mem_keys_configs_by_pm_go: a process manager is a key of the
accumulated grouping when it is a key of the accumulator or owns a config
of the list. -/
theorem mem_keys_configs_by_pm_go (cs : List Config) :
    ∀ acc pm, pm ∈ (configs_by_pm_go acc cs).map Prod.fst
      ↔ pm ∈ acc.map Prod.fst ∨ ∃ c ∈ cs, c.process_manager = pm := by
  induction cs with
  | nil => intro acc pm; simp [configs_by_pm_go]
  | cons c rest ih =>
    intro acc pm
    show pm ∈ (configs_by_pm_go (add_to_group acc c) rest).map Prod.fst ↔ _
    rw [ih, mem_keys_add_to_group]
    constructor
    · rintro ((h | h) | ⟨c', hc', hp'⟩)
      · exact Or.inl h
      · exact Or.inr ⟨c, List.mem_cons_self c rest, h.symm⟩
      · exact Or.inr ⟨c', List.mem_cons_of_mem c hc', hp'⟩
    · rintro (h | ⟨c', hc', hp'⟩)
      · exact Or.inl (Or.inl h)
      · rcases List.mem_cons.mp hc' with hec | hmem
        · exact Or.inl (Or.inr (by rw [← hec, hp']))
        · exact Or.inr ⟨c', hmem, hp'⟩

/-- group_get_configs_by_pm: the group of a process manager in the grouping
of a config list is exactly the sublist of configs bound to it. -/
theorem group_get_configs_by_pm (cs : List Config) (pm : String) :
    group_get (configs_by_pm cs) pm
      = cs.filter (fun c => decide (c.process_manager = pm)) := by
  simpa [configs_by_pm, group_get] using group_get_configs_by_pm_go cs [] pm

/-- mem_keys_configs_by_pm: the grouping has a key for a process manager
exactly when some config of the list is bound to it. -/
theorem mem_keys_configs_by_pm (cs : List Config) (pm : String) :
    pm ∈ (configs_by_pm cs).map Prod.fst ↔ ∃ c ∈ cs, c.process_manager = pm := by
  simpa [configs_by_pm] using mem_keys_configs_by_pm_go cs [] pm

/-- dispatch_loop_ok: when every dispatched name denotes a loaded backend,
the dispatch loop succeeds and produces one invocation per name, in order,
each carrying the group of that backend. -/
theorem dispatch_loop_ok (pms : List String) (by_pm : List (String × List Config)) :
    ∀ l, (∀ pm ∈ l, pm ∈ pms) →
      dispatch_loop pms by_pm l
        = Except.ok (l.map (fun pm => (pm, group_get by_pm pm))) := by
  intro l
  induction l with
  | nil => intro _; rfl
  | cons pm rest ih =>
    intro h
    have hpm : pm ∈ pms := h pm (List.mem_cons_self pm rest)
    have hr := ih (fun q hq => h q (List.mem_cons_of_mem pm hq))
    show (if pm ∈ pms then do
            let calls ← dispatch_loop pms by_pm rest
            Except.ok ((pm, group_get by_pm pm) :: calls)
          else Except.error (PyError.keyError pm))
        = Except.ok ((pm :: rest).map fun q => (q, group_get by_pm q))
    rw [if_pos hpm, hr]
    rfl

/-- map_fst_pair: projecting the first components out of a list tagged by a
function returns the original list. -/
theorem map_fst_pair {α β : Type} (g : α → β) (l : List α) :
    (l.map (fun x => (x, g x))).map Prod.fst = l := by
  induction l with
  | nil => rfl
  | cons x rest ih => simp [ih]

/-- C1: routed dispatch with no name tokens over any registry whose configs
are all bound to loaded backends: in route mode every invocation carries
exactly the registered configs bound to that backend and is nonempty, and
every backend owning at least one config is invoked, so backends owning
none are never invoked; in route-to-all mode, as used by update, every
loaded backend is invoked exactly once, again with exactly its matching
configs, possibly none. -/
theorem route_dispatch (pms : List String) (reg : Registry) (valid : List String)
    (hpm : ∀ c ∈ reg.configs, c.process_manager ∈ pms) :
    (∃ calls, route_calls pms reg valid false [] = Except.ok calls
      ∧ (∀ pc ∈ calls,
            pc.2 = reg.configs.filter (fun c => decide (c.process_manager = pc.1))
          ∧ pc.2 ≠ [])
      ∧ (∀ pm, (∃ c ∈ reg.configs, c.process_manager = pm) →
            pm ∈ calls.map Prod.fst))
  ∧ (∃ calls, route_calls pms reg valid true [] = Except.ok calls
      ∧ calls.map Prod.fst = pms
      ∧ (∀ pc ∈ calls,
            pc.2 = reg.configs.filter (fun c => decide (c.process_manager = pc.1)))) := by
  have hfalse : route_calls pms reg valid false []
      = dispatch_loop pms (configs_by_pm reg.configs)
          ((configs_by_pm reg.configs).map Prod.fst) := rfl
  have htrue : route_calls pms reg valid true []
      = dispatch_loop pms (configs_by_pm reg.configs) pms := rfl
  constructor
  · have hk : ∀ pm ∈ (configs_by_pm reg.configs).map Prod.fst, pm ∈ pms := by
      intro pm hpmk
      obtain ⟨c, hc, hcpm⟩ := (mem_keys_configs_by_pm reg.configs pm).mp hpmk
      exact hcpm ▸ hpm c hc
    refine ⟨((configs_by_pm reg.configs).map Prod.fst).map
        (fun pm => (pm, group_get (configs_by_pm reg.configs) pm)), ?_, ?_, ?_⟩
    · rw [hfalse]
      exact dispatch_loop_ok pms (configs_by_pm reg.configs) _ hk
    · intro pc hpc
      obtain ⟨pm, hpmk, hpc_eq⟩ := List.mem_map.mp hpc
      subst hpc_eq
      constructor
      · exact group_get_configs_by_pm reg.configs pm
      · obtain ⟨c, hc, hcpm⟩ := (mem_keys_configs_by_pm reg.configs pm).mp hpmk
        have hcmem : c ∈ reg.configs.filter
            (fun c => decide (c.process_manager = pm)) :=
          List.mem_filter.mpr ⟨hc, by simpa using hcpm⟩
        rw [group_get_configs_by_pm]
        exact List.ne_nil_of_mem hcmem
    · intro pm hex
      have hmem : pm ∈ (configs_by_pm reg.configs).map Prod.fst :=
        (mem_keys_configs_by_pm reg.configs pm).mpr hex
      have heq := map_fst_pair (fun q => group_get (configs_by_pm reg.configs) q)
        ((configs_by_pm reg.configs).map Prod.fst)
      rw [heq]
      exact hmem
  · refine ⟨pms.map (fun pm => (pm, group_get (configs_by_pm reg.configs) pm)),
        ?_, ?_, ?_⟩
    · rw [htrue]
      exact dispatch_loop_ok pms (configs_by_pm reg.configs) pms (fun _ h => h)
    · exact map_fst_pair (fun q => group_get (configs_by_pm reg.configs) q) pms
    · intro pc hpc
      obtain ⟨pm, _, hpc_eq⟩ := List.mem_map.mp hpc
      subst hpc_eq
      exact group_get_configs_by_pm reg.configs pm

/-- route_dispatch_witness instantiates the dispatch theorem on two loaded
backends and the two-instance registry, both instances bound to systemd. -/
theorem route_dispatch_witness :
    (∃ calls, route_calls ["systemd", "supervisor"] reg_exec [] false []
          = Except.ok calls
      ∧ (∀ pc ∈ calls,
            pc.2 = reg_exec.configs.filter
              (fun c => decide (c.process_manager = pc.1))
          ∧ pc.2 ≠ [])
      ∧ (∀ pm, (∃ c ∈ reg_exec.configs, c.process_manager = pm) →
            pm ∈ calls.map Prod.fst))
  ∧ (∃ calls, route_calls ["systemd", "supervisor"] reg_exec [] true []
          = Except.ok calls
      ∧ calls.map Prod.fst = ["systemd", "supervisor"]
      ∧ (∀ pc ∈ calls,
            pc.2 = reg_exec.configs.filter
              (fun c => decide (c.process_manager = pc.1)))) :=
  route_dispatch ["systemd", "supervisor"] reg_exec [] (by decide)

/-- C2: the reconciliation of the systemd update pass removes exactly the
present managed artifacts outside the intended set in normal mode, leaves
every on-disk entry whose path is intended untouched in normal mode, and
removes exactly the present managed artifacts inside the intended set in
clean mode. -/
theorem reconcile_removal_sets (fs : List (String × String)) (intended : List String) :
    (∀ f, f ∈ (reconcile fs intended false).2
        ↔ f ∈ (fs.map Prod.fst).filter managed_unit ∧ f ∉ intended)
  ∧ (∀ p ∈ fs, p.1 ∈ intended → p ∈ (reconcile fs intended false).1)
  ∧ (∀ f, f ∈ (reconcile fs intended true).2
        ↔ f ∈ (fs.map Prod.fst).filter managed_unit ∧ f ∈ intended) := by
  refine ⟨?_, ?_, ?_⟩
  · intro f
    show f ∈ ((fs.map Prod.fst).filter managed_unit).filter
        (fun f => decide (f ∉ intended)) ↔ _
    rw [List.mem_filter]
    simp only [decide_eq_true_eq]
  · intro p hp hi
    show p ∈ fs.filter (fun q => decide (q.1 ∉
        ((fs.map Prod.fst).filter managed_unit).filter
          (fun f => decide (f ∉ intended))))
    rw [List.mem_filter]
    refine ⟨hp, ?_⟩
    simp only [decide_eq_true_eq]
    intro hmem
    have h2 := (List.mem_filter.mp hmem).2
    simp only [decide_eq_true_eq] at h2
    exact h2 hi
  · intro f
    show f ∈ ((fs.map Prod.fst).filter managed_unit).filter
        (fun f => decide (f ∈ intended)) ↔ _
    rw [List.mem_filter]
    simp only [decide_eq_true_eq]

/-- fs_reconcile is a concrete unit directory with one managed service
file, one managed target file and one unmanaged file. -/
def fs_reconcile : List (String × String) :=
  [("galaxy-alpha-web.service", "w"), ("galaxy.target", "t"), ("mysql.service", "m")]

/-- reconcile_removal_sets_witness instantiates the reconciliation theorem
on the concrete directory with the target intended: the stale service file
is in the removal set and the intended target entry survives untouched. -/
theorem reconcile_removal_sets_witness :
    ("galaxy-alpha-web.service" ∈ (reconcile fs_reconcile ["galaxy.target"] false).2
      ↔ "galaxy-alpha-web.service"
            ∈ (fs_reconcile.map Prod.fst).filter managed_unit
        ∧ "galaxy-alpha-web.service" ∉ ["galaxy.target"])
  ∧ ("galaxy.target", "t") ∈ (reconcile fs_reconcile ["galaxy.target"] false).1 :=
  ⟨(reconcile_removal_sets fs_reconcile ["galaxy.target"]).1
      "galaxy-alpha-web.service",
   (reconcile_removal_sets fs_reconcile ["galaxy.target"]).2.1
      ("galaxy.target", "t") (by decide) (by decide)⟩

/-- classifier_ok_characterize: a successful classification returns the
three order-preserving filters of the token list. -/
theorem classifier_ok_characterize (reg : Registry) (valid names : List String)
    (i s w : List String)
    (hok : instance_service_names reg valid names = Except.ok (i, s, w)) :
    i = names.filter (fun n => decide (n ∈ registered_instance_names reg))
  ∧ s = names.filter (fun n =>
        decide (n ∉ registered_instance_names reg ∧
          (n ∈ configured_service_names reg ∨ n ∈ valid)))
  ∧ w = names.filter (fun n =>
        decide (n ∉ registered_instance_names reg ∧
          n ∉ configured_service_names reg ∧ n ∉ valid)) := by
  by_cases hn : names = []
  · subst hn
    have h : (([], [], []) : List String × List String × List String) = (i, s, w) :=
      Except.ok.inj hok
    rw [Prod.mk.injEq, Prod.mk.injEq] at h
    exact ⟨h.1.symm, h.2.1.symm, h.2.2.symm⟩
  · simp only [instance_service_names] at hok
    rw [if_neg hn] at hok
    split at hok
    · simp at hok
    · rw [Except.ok.injEq, Prod.mk.injEq, Prod.mk.injEq] at hok
      exact ⟨hok.1.symm, hok.2.1.symm, hok.2.2.symm⟩

/-- C8: token classification: every token placed in the instance result is
a registered instance name and every token placed in the service result is
not, so no token appears in both results; a supplied token matching
neither the instance nor the service sets lands in the warned list; and a
nonempty token sequence in which no token matches anything makes the whole
classification fail with the no-known-names error before any dispatch. -/
theorem classifier_partition (reg : Registry) (valid names : List String) :
    (∀ i s w, instance_service_names reg valid names = Except.ok (i, s, w) →
        (∀ t ∈ i, t ∈ registered_instance_names reg)
      ∧ (∀ t ∈ s, t ∉ registered_instance_names reg)
      ∧ (∀ t ∈ s, t ∉ i)
      ∧ (∀ t ∈ names, t ∉ registered_instance_names reg →
            t ∉ configured_service_names reg → t ∉ valid → t ∈ w))
  ∧ (names ≠ [] →
      (∀ t ∈ names, t ∉ registered_instance_names reg ∧
          t ∉ configured_service_names reg ∧ t ∉ valid) →
      instance_service_names reg valid names
        = Except.error (PyError.gravityError
            "No provided names are known instance or service names")) := by
  constructor
  · intro i s w hok
    obtain ⟨hi, hs, hw⟩ := classifier_ok_characterize reg valid names i s w hok
    subst hi; subst hs; subst hw
    refine ⟨?_, ?_, ?_, ?_⟩
    · intro t ht
      have h2 := (List.mem_filter.mp ht).2
      simpa using h2
    · intro t ht
      have h2 := (List.mem_filter.mp ht).2
      simp only [decide_eq_true_eq] at h2
      exact h2.1
    · intro t ht hti
      have h1 := (List.mem_filter.mp ht).2
      have h2 := (List.mem_filter.mp hti).2
      simp only [decide_eq_true_eq] at h1 h2
      exact absurd h2 h1.1
    · intro t ht h1 h2 h3
      refine List.mem_filter.mpr ⟨ht, ?_⟩
      simp [h1, h2, h3]
  · intro hn hall
    have hi : names.filter
        (fun n => decide (n ∈ registered_instance_names reg)) = [] := by
      rw [List.filter_eq_nil_iff]
      intro a ha
      simp [(hall a ha).1]
    have hs : names.filter (fun n =>
        decide (n ∉ registered_instance_names reg ∧
          (n ∈ configured_service_names reg ∨ n ∈ valid))) = [] := by
      rw [List.filter_eq_nil_iff]
      intro a ha
      simp [(hall a ha).2.1, (hall a ha).2.2]
    simp only [instance_service_names]
    rw [if_neg hn, if_pos (And.intro hi hs)]

/-- classifier_partition_witness instantiates the classification theorem on
the two-instance registry: one instance token, one service token and one
unknown token classify as expected, and an all-unknown request fails. -/
theorem classifier_partition_witness :
    ((∀ t ∈ (["alpha"] : List String), t ∈ registered_instance_names reg_exec)
  ∧ (∀ t ∈ (["web"] : List String), t ∉ registered_instance_names reg_exec)
  ∧ (∀ t ∈ (["web"] : List String), t ∉ (["alpha"] : List String))
  ∧ (∀ t ∈ (["alpha", "web", "bogus"] : List String),
        t ∉ registered_instance_names reg_exec →
        t ∉ configured_service_names reg_exec →
        t ∉ ([] : List String) → t ∈ (["bogus"] : List String)))
  ∧ instance_service_names reg_exec [] ["bogus"]
      = Except.error (PyError.gravityError
          "No provided names are known instance or service names") :=
  ⟨(classifier_partition reg_exec [] ["alpha", "web", "bogus"]).1
      ["alpha"] ["web"] ["bogus"] rfl,
   (classifier_partition reg_exec [] ["bogus"]).2 (by decide) (by decide)⟩

end Gravity
